import Mathlib

/-!
Verification of the formatting-configuration resolution and output-composition
engine of the icu4x Ruby extension (ext/icu4x/src).

The development shallowly embeds:
* `PartsCollector` (ext/icu4x/src/parts_collector.rs): the nested-part text
  sink that flattens nested part annotations into a list of (text, part)
  spans.  A render call is embedded as a tree of sink operations
  (`write_str` calls and `with_part` regions); running the tree against a
  collector state mirrors the Rust code line by line.
* `DateTimeFormat::new` option resolution
  (ext/icu4x/src/datetime_format.rs): style/component extraction, the
  mutual-exclusion check, the default component set, and
  `create_field_set_from_components` / `create_field_set_from_style`.
  Host-binding concerns (the Ruby VM, the data provider, IANA time-zone
  parsing, the `hour12` boolean) are outside the embedded surface, as are
  the locale-data driven renderers.
* `NumberFormat` (ext/icu4x/src/number_format.rs): option validation and the
  digit/rounding pipeline applied in `format`.  The primitive decimal
  operations (`multiply_pow10`, `trim_start`, `round_with_mode`, `pad_end`,
  `pad_start`) live in the external `fixed_decimal` crate; they are modelled
  from the spec's description of the digit & rounding pipeline (scaling,
  the nine rounding modes with their tie-breaks, trailing/leading zero
  padding) together with that crate's documented examples.
-/

namespace Icu4x

/-! ## Parts collector (ext/icu4x/src/parts_collector.rs) -/

/-- A part annotation, as in the `writeable` crate: a category and a value,
both static strings (e.g. the literal part is
`Part { category: "literal", value: "literal" }`). -/
structure Part where
  category : String
  value : String
deriving DecidableEq, Repr

/-- The literal part used by `PartsCollector::flush` and the top-level flush
inside `with_part`. -/
def literalPart : Part := { category := "literal", value := "literal" }

/-- State of `PartsCollector`: accumulated spans, the pending text buffer,
and the stack of open part contexts (top of stack at the head). -/
structure PartsCollector where
  parts : List (String × Part)
  currentBuffer : String
  partStack : List Part
deriving DecidableEq, Repr

/-- `PartsCollector::new()`. -/
def PartsCollector.new : PartsCollector :=
  { parts := [], currentBuffer := "", partStack := [] }

/-- `PartsCollector::flush`: if the pending buffer is non-empty, push it as
one span tagged with the literal part and clear the buffer. -/
def PartsCollector.flush (c : PartsCollector) : PartsCollector :=
  if c.currentBuffer.isEmpty then c
  else { c with parts := c.parts ++ [(c.currentBuffer, literalPart)], currentBuffer := "" }

/-- `PartsCollector::into_parts`: flush the remaining buffer, return the spans. -/
def PartsCollector.intoParts (c : PartsCollector) : List (String × Part) :=
  c.flush.parts

mutual

/-- One operation a render performs against a parts sink: a `write_str`
call, or a `with_part(part, f)` region whose closure performs the nested
operations in order. -/
inductive WOp where
  | write (s : String)
  | withPart (p : Part) (ops : WOps)

/-- A sequence of sink operations (the body of a render call or of a
`with_part` closure). -/
inductive WOps where
  | nil
  | cons (op : WOp) (ops : WOps)

end

mutual

/-- Run one sink operation against the collector, mirroring
`PartsCollector::write_str` and `PartsCollector::with_part`. -/
def runOp : WOp → PartsCollector → PartsCollector
  | .write s, c => { c with currentBuffer := c.currentBuffer ++ s }
  | .withPart p ops, c =>
    -- if at top level, store any buffered content as literal before entering
    let c1 := if c.partStack.isEmpty && !c.currentBuffer.isEmpty then
      { c with parts := c.parts ++ [(c.currentBuffer, literalPart)], currentBuffer := "" }
    else c
    -- push this part onto the stack
    let c2 := { c1 with partStack := p :: c1.partStack }
    -- execute the writing function
    let c3 := runOps ops c2
    -- pop this part from the stack
    let c4 := { c3 with partStack := c3.partStack.tail }
    -- if back at top level, store collected content with effective part
    if c4.partStack.isEmpty && !c4.currentBuffer.isEmpty then
      { c4 with parts := c4.parts ++ [(c4.currentBuffer, p)], currentBuffer := "" }
    else c4

/-- Run a sequence of sink operations in order. -/
def runOps : WOps → PartsCollector → PartsCollector
  | .nil, c => c
  | .cons op ops, c => runOps ops (runOp op c)

end

mutual

/-- The text an operation writes into a plain string sink (the
`fmt::Write for String` behaviour used by the plain-string render path):
part annotations are ignored, writes concatenate. -/
def plainOp : WOp → String
  | .write s => s
  | .withPart _ ops => plainOps ops

/-- The text a sequence of operations writes into a plain string sink. -/
def plainOps : WOps → String
  | .nil => ""
  | .cons op ops => plainOp op ++ plainOps ops

end

/-- Concatenation of the texts of a span list, in order. -/
def joinTexts : List (String × Part) → String
  | [] => ""
  | x :: xs => x.1 ++ joinTexts xs

/-- The total text held by a collector state, as a character list: emitted
spans plus the pending buffer. -/
def totalData (c : PartsCollector) : List Char :=
  (joinTexts c.parts).data ++ c.currentBuffer.data

/-! ## DateTimeFormat option resolution (ext/icu4x/src/datetime_format.rs)

Option input is embedded as an association list of (key, symbol) pairs,
mirroring the Ruby kwargs hash restricted to its symbol-valued options.
Host-binding plumbing (the data provider, the IANA time-zone string, the
boolean `hour12` key) is outside the embedded surface; the output is the
resolved format descriptor (field set plus retained options), the part of
the construction this code computes before handing off to the external
locale-data renderer. -/

/-- Date style option. -/
inductive DateStyle where
  | full | long | medium | short
deriving DecidableEq, Repr

/-- Time style option. -/
inductive TimeStyle where
  | full | long | medium | short
deriving DecidableEq, Repr

/-- Hour cycle option. -/
inductive HourCycle where
  | h11 | h12 | h23
deriving DecidableEq, Repr

/-- Year component option. -/
inductive YearStyle where
  | numeric | twoDigit
deriving DecidableEq, Repr

/-- Month component option. -/
inductive MonthStyle where
  | numeric | twoDigit | long | short | narrow
deriving DecidableEq, Repr

/-- Day component option. -/
inductive DayStyle where
  | numeric | twoDigit
deriving DecidableEq, Repr

/-- Weekday component option. -/
inductive WeekdayStyle where
  | long | short | narrow
deriving DecidableEq, Repr

/-- Hour component option. -/
inductive HourStyle where
  | numeric | twoDigit
deriving DecidableEq, Repr

/-- Minute component option. -/
inductive MinuteStyle where
  | numeric | twoDigit
deriving DecidableEq, Repr

/-- Second component option. -/
inductive SecondStyle where
  | numeric | twoDigit
deriving DecidableEq, Repr

/-- Calendar option. -/
inductive Calendar where
  | gregory | japanese | buddhist | chinese | hebrew | islamic | persian
  | indian | ethiopian | coptic | roc | dangi
deriving DecidableEq, Repr

/-- `from_ruby_symbol` for `DateStyle`, as generated by the derive macro in
ext/icu4x_macros/src/lib.rs: match the snake_case variant names in order,
else a validation error naming the key and its accepted symbols. -/
def DateStyle.fromSym (s key : String) : Except String DateStyle :=
  if s = "full" then .ok .full
  else if s = "long" then .ok .long
  else if s = "medium" then .ok .medium
  else if s = "short" then .ok .short
  else .error (key ++ " must be :full, :long, :medium, :short")

/-- `from_ruby_symbol` for `TimeStyle`. -/
def TimeStyle.fromSym (s key : String) : Except String TimeStyle :=
  if s = "full" then .ok .full
  else if s = "long" then .ok .long
  else if s = "medium" then .ok .medium
  else if s = "short" then .ok .short
  else .error (key ++ " must be :full, :long, :medium, :short")

/-- `from_ruby_symbol` for `HourCycle`. -/
def HourCycle.fromSym (s key : String) : Except String HourCycle :=
  if s = "h11" then .ok .h11
  else if s = "h12" then .ok .h12
  else if s = "h23" then .ok .h23
  else .error (key ++ " must be :h11, :h12, :h23")

/-- `from_ruby_symbol` for `YearStyle`. -/
def YearStyle.fromSym (s key : String) : Except String YearStyle :=
  if s = "numeric" then .ok .numeric
  else if s = "two_digit" then .ok .twoDigit
  else .error (key ++ " must be :numeric, :two_digit")

/-- `from_ruby_symbol` for `MonthStyle`. -/
def MonthStyle.fromSym (s key : String) : Except String MonthStyle :=
  if s = "numeric" then .ok .numeric
  else if s = "two_digit" then .ok .twoDigit
  else if s = "long" then .ok .long
  else if s = "short" then .ok .short
  else if s = "narrow" then .ok .narrow
  else .error (key ++ " must be :numeric, :two_digit, :long, :short, :narrow")

/-- `from_ruby_symbol` for `DayStyle`. -/
def DayStyle.fromSym (s key : String) : Except String DayStyle :=
  if s = "numeric" then .ok .numeric
  else if s = "two_digit" then .ok .twoDigit
  else .error (key ++ " must be :numeric, :two_digit")

/-- `from_ruby_symbol` for `WeekdayStyle`. -/
def WeekdayStyle.fromSym (s key : String) : Except String WeekdayStyle :=
  if s = "long" then .ok .long
  else if s = "short" then .ok .short
  else if s = "narrow" then .ok .narrow
  else .error (key ++ " must be :long, :short, :narrow")

/-- `from_ruby_symbol` for `HourStyle`. -/
def HourStyle.fromSym (s key : String) : Except String HourStyle :=
  if s = "numeric" then .ok .numeric
  else if s = "two_digit" then .ok .twoDigit
  else .error (key ++ " must be :numeric, :two_digit")

/-- `from_ruby_symbol` for `MinuteStyle`. -/
def MinuteStyle.fromSym (s key : String) : Except String MinuteStyle :=
  if s = "numeric" then .ok .numeric
  else if s = "two_digit" then .ok .twoDigit
  else .error (key ++ " must be :numeric, :two_digit")

/-- `from_ruby_symbol` for `SecondStyle`. -/
def SecondStyle.fromSym (s key : String) : Except String SecondStyle :=
  if s = "numeric" then .ok .numeric
  else if s = "two_digit" then .ok .twoDigit
  else .error (key ++ " must be :numeric, :two_digit")

/-- `from_ruby_symbol` for `Calendar`. -/
def Calendar.fromSym (s key : String) : Except String Calendar :=
  if s = "gregory" then .ok .gregory
  else if s = "japanese" then .ok .japanese
  else if s = "buddhist" then .ok .buddhist
  else if s = "chinese" then .ok .chinese
  else if s = "hebrew" then .ok .hebrew
  else if s = "islamic" then .ok .islamic
  else if s = "persian" then .ok .persian
  else if s = "indian" then .ok .indian
  else if s = "ethiopian" then .ok .ethiopian
  else if s = "coptic" then .ok .coptic
  else if s = "roc" then .ok .roc
  else if s = "dangi" then .ok .dangi
  else .error (key ++ " must be :gregory, :japanese, :buddhist, :chinese, :hebrew, :islamic, :persian, :indian, :ethiopian, :coptic, :roc, :dangi")

/-- Component options for date/time formatting. -/
structure ComponentOptions where
  year : Option YearStyle := none
  month : Option MonthStyle := none
  day : Option DayStyle := none
  weekday : Option WeekdayStyle := none
  hour : Option HourStyle := none
  minute : Option MinuteStyle := none
  second : Option SecondStyle := none
deriving DecidableEq, Repr

/-- `ComponentOptions::has_date_components`. -/
def ComponentOptions.hasDateComponents (o : ComponentOptions) : Bool :=
  o.year.isSome || o.month.isSome || o.day.isSome || o.weekday.isSome

/-- `ComponentOptions::has_time_components`. -/
def ComponentOptions.hasTimeComponents (o : ComponentOptions) : Bool :=
  o.hour.isSome || o.minute.isSome || o.second.isSome

/-- `ComponentOptions::is_empty`. -/
def ComponentOptions.isEmpty (o : ComponentOptions) : Bool :=
  !o.hasDateComponents && !o.hasTimeComponents

/-- ICU4X `Length`. -/
inductive Length where
  | long | medium | short
deriving DecidableEq, Repr

/-- `ComponentOptions::determine_length`: any text-based month or weekday
option selects the long length, otherwise the short length. -/
def ComponentOptions.determineLength (o : ComponentOptions) : Length :=
  let hasTextMonth := match o.month with
    | some .long | some .short | some .narrow => true
    | _ => false
  let hasTextWeekday := match o.weekday with
    | some .long | some .short | some .narrow => true
    | _ => false
  if hasTextMonth || hasTextWeekday then .long else .short

/-- The ICU4X `DateFieldSet` variants constructed by this code, each
carrying its length. -/
inductive DateFieldSet where
  | d (l : Length) | md (l : Length) | mde (l : Length) | de (l : Length)
  | e (l : Length) | ymd (l : Length) | ymde (l : Length)
deriving DecidableEq, Repr

/-- The ICU4X `CalendarPeriodFieldSet` variants constructed by this code. -/
inductive CalendarPeriodFieldSet where
  | y (l : Length) | ym (l : Length) | m (l : Length)
deriving DecidableEq, Repr

/-- The ICU4X `TimeFieldSet` variant constructed by this code. -/
inductive TimeFieldSet where
  | t (l : Length)
deriving DecidableEq, Repr

/-- The ICU4X `DateAndTimeFieldSet` variant constructed by this code. -/
inductive DateAndTimeFieldSet where
  | ymdt (l : Length)
deriving DecidableEq, Repr

/-- ICU4X `CompositeDateTimeFieldSet`. -/
inductive CompositeDateTimeFieldSet where
  | date (d : DateFieldSet)
  | calendarPeriod (c : CalendarPeriodFieldSet)
  | time (t : TimeFieldSet)
  | dateTime (dt : DateAndTimeFieldSet)
deriving DecidableEq, Repr

/-- `DateTimeFormat::create_field_set_from_components`, arm for arm.  The
`unreachable!()` arm (no date component despite `has_date_components`) is
embedded as an error. -/
def createFieldSetFromComponents (opts : ComponentOptions) :
    Except String CompositeDateTimeFieldSet :=
  let hasDate := opts.hasDateComponents
  let hasTime := opts.hasTimeComponents
  let length := opts.determineLength
  match hasDate, hasTime with
  | true, true => .ok (.dateTime (.ymdt length))
  | true, false =>
    match opts.year.isSome, opts.month.isSome, opts.day.isSome, opts.weekday.isSome with
    | true, true, true, true => .ok (.date (.ymde length))
    | true, true, true, false => .ok (.date (.ymd length))
    | false, true, true, true => .ok (.date (.mde length))
    | false, true, true, false => .ok (.date (.md length))
    | true, true, false, _ => .ok (.calendarPeriod (.ym length))
    | false, true, false, _ => .ok (.calendarPeriod (.m length))
    | false, false, true, true => .ok (.date (.de length))
    | false, false, true, false => .ok (.date (.d length))
    | false, false, false, true => .ok (.date (.e length))
    | true, false, false, _ => .ok (.calendarPeriod (.y length))
    | true, false, true, _ => .ok (.date (.ymd length))
    | false, false, false, false => .error "unreachable"
  | false, true => .ok (.time (.t length))
  | false, false => .error "at least one component option must be specified"

/-- `DateTimeFormat::create_field_set_from_style`.  The `unreachable!()`
arm (neither style present) is embedded as an error. -/
def createFieldSetFromStyle (ds : Option DateStyle) (ts : Option TimeStyle) :
    Except String CompositeDateTimeFieldSet :=
  match ds, ts with
  | some d, some _ =>
    let l := match d with
      | .full | .long => Length.long
      | .medium => Length.medium
      | .short => Length.short
    .ok (.dateTime (.ymdt l))
  | some d, none =>
    let l := match d with
      | .full | .long => Length.long
      | .medium => Length.medium
      | .short => Length.short
    .ok (.date (.ymd l))
  | none, some t =>
    let l := match t with
      | .full | .long => Length.long
      | .medium => Length.medium
      | .short => Length.short
    .ok (.time (.t l))
  | none, none =>
    .error "unreachable: at least one of date_style or time_style must be specified"

/-- `helpers::extract_symbol`: look the key up in the kwargs, convert a
present symbol with the enum converter (passing the key name for the error
message), absent keys yield `none`. -/
def extractSymbol {A : Type} (kw : List (String × String)) (key : String)
    (conv : String → String → Except String A) : Except String (Option A) :=
  match List.lookup key kw with
  | none => .ok none
  | some s => (conv s key).map some

/-- `DateTimeFormat::extract_component_options`, in source order. -/
def extractComponentOptions (kw : List (String × String)) :
    Except String ComponentOptions := do
  let year ← extractSymbol kw "year" YearStyle.fromSym
  let month ← extractSymbol kw "month" MonthStyle.fromSym
  let day ← extractSymbol kw "day" DayStyle.fromSym
  let weekday ← extractSymbol kw "weekday" WeekdayStyle.fromSym
  let hour ← extractSymbol kw "hour" HourStyle.fromSym
  let minute ← extractSymbol kw "minute" MinuteStyle.fromSym
  let second ← extractSymbol kw "second" SecondStyle.fromSym
  .ok { year := year, month := month, day := day, weekday := weekday,
        hour := hour, minute := minute, second := second }

/-- The resolved descriptor a successful `DateTimeFormat::new` retains: the
field set handed to the external renderer plus the recorded options. -/
structure DateTimeFormat where
  fieldSet : CompositeDateTimeFieldSet
  dateStyle : Option DateStyle
  timeStyle : Option TimeStyle
  calendar : Option Calendar
  hourCycle : Option HourCycle
  componentOptions : Option ComponentOptions
deriving DecidableEq, Repr

/-- `DateTimeFormat::new` option resolution, in source order: extract the
styles and the component options, reject the mutually exclusive use of
both groups, default to year/month/day numeric when neither group is
present, extract calendar and hour-cycle, and build the field set. -/
def DateTimeFormat.new (kw : List (String × String)) :
    Except String DateTimeFormat := do
  let dateStyle ← extractSymbol kw "date_style" DateStyle.fromSym
  let timeStyle ← extractSymbol kw "time_style" TimeStyle.fromSym
  let comp ← extractComponentOptions kw
  let hasStyleOptions := dateStyle.isSome || timeStyle.isSome
  let hasComponentOptions := !comp.isEmpty
  if hasStyleOptions && hasComponentOptions then
    .error "cannot use date_style/time_style together with component options (year, month, day, etc.)"
  else do
    let comp := if !hasStyleOptions && !hasComponentOptions then
        { year := some .numeric, month := some .numeric, day := some .numeric }
      else comp
    let hasComponentOptions := !comp.isEmpty
    let calendar ← extractSymbol kw "calendar" Calendar.fromSym
    let hourCycle ← extractSymbol kw "hour_cycle" HourCycle.fromSym
    let fieldSet ← if hasComponentOptions then createFieldSetFromComponents comp
      else createFieldSetFromStyle dateStyle timeStyle
    .ok { fieldSet := fieldSet, dateStyle := dateStyle, timeStyle := timeStyle,
          calendar := calendar, hourCycle := hourCycle,
          componentOptions := if hasComponentOptions then some comp else none }

/-- The name (component combination) of a selected field set, discarding
the length. -/
inductive FieldSetName where
  | ymde | ymd | mde | md | ym | m | de | d | e | y | ymdt | t
deriving DecidableEq, Repr

/-- Project a composite field set to its name. -/
def fieldSetName : CompositeDateTimeFieldSet → FieldSetName
  | .date (.d _) => .d
  | .date (.md _) => .md
  | .date (.mde _) => .mde
  | .date (.de _) => .de
  | .date (.e _) => .e
  | .date (.ymd _) => .ymd
  | .date (.ymde _) => .ymde
  | .calendarPeriod (.y _) => .y
  | .calendarPeriod (.ym _) => .ym
  | .calendarPeriod (.m _) => .m
  | .time (.t _) => .t
  | .dateTime (.ymdt _) => .ymdt

/-- The selection table the code implements, keyed on presence of
year/month/day/weekday and whether any time component is present: exact
named sets where they exist; the combinations without a named set map to
YM, M, Y or YMD as in the source; any time component forces the combined
YMDT set (or T when no date component is present); all-absent is an
error. -/
def expectedSelection (y m d e hasTime : Bool) : Option FieldSetName :=
  if hasTime then some (if y || m || d || e then .ymdt else .t)
  else match y, m, d, e with
  | true, true, true, true => some .ymde
  | true, true, true, false => some .ymd
  | false, true, true, true => some .mde
  | false, true, true, false => some .md
  | true, true, false, _ => some .ym
  | false, true, false, _ => some .m
  | false, false, true, true => some .de
  | false, false, true, false => some .d
  | false, false, false, true => some .e
  | true, false, false, _ => some .y
  | true, false, true, _ => some .ymd
  | false, false, false, false => none

/-! ## NumberFormat (ext/icu4x/src/number_format.rs) -/

/-- The style of number formatting. -/
inductive Style where
  | decimal | percent | currency
deriving DecidableEq, Repr

/-- Rounding mode for number formatting (default: half_expand). -/
inductive RoundingMode where
  | ceil | floor | expand | trunc
  | halfCeil | halfFloor | halfExpand | halfTrunc | halfEven
deriving DecidableEq, Repr

/-- Modelled from the spec: the external `fixed_decimal::Decimal` value —
sign, digit sequence and decimal-point position (spec Decimal Value) —
represented as a sign, an absolute coefficient and a power-of-ten exponent,
plus the display bounds: `upperMag` is the highest rendered digit position
and `lowerMag` the lowest; the rendered range always spans position 0. -/
structure Dec where
  neg : Bool
  coeff : Nat
  exp : Int
  upperMag : Int
  lowerMag : Int
deriving DecidableEq, Repr

/-- The numeric value of a decimal, independent of the display bounds. -/
def Dec.value (d : Dec) : ℚ :=
  (if d.neg then -1 else 1) * (d.coeff : ℚ) * (10 : ℚ) ^ d.exp

/-- Number of base-ten digits of `n` (fuelled structural recursion, 0 for
0). -/
def numDigitsAux : Nat → Nat → Nat
  | 0, _ => 0
  | fuel + 1, n => if n = 0 then 0 else 1 + numDigitsAux fuel (n / 10)

/-- Number of base-ten digits of `n` (0 for 0). -/
def numDigits (n : Nat) : Nat := numDigitsAux n n

/-- Position of the most significant nonzero digit (0 for zero). -/
def Dec.msMag (d : Dec) : Int :=
  if d.coeff = 0 then 0 else d.exp + (numDigits d.coeff - 1)

/-- The digit at position `i` (position 0 is the ones place). -/
def Dec.digitAt (d : Dec) (i : Int) : Nat :=
  if i < d.exp then 0 else d.coeff / 10 ^ (i - d.exp).toNat % 10

/-- Number of factors of ten of `n` (fuelled structural recursion, 0 for 0). -/
def trailingTensAux : Nat → Nat → Nat
  | 0, _ => 0
  | fuel + 1, n => if n ≠ 0 ∧ n % 10 = 0 then 1 + trailingTensAux fuel (n / 10) else 0

/-- Number of factors of ten of `n` (0 for 0). -/
def trailingTens (n : Nat) : Nat := trailingTensAux n n

/-- Position of the least significant nonzero digit (0 for zero). -/
def Dec.nzEnd (d : Dec) : Int :=
  if d.coeff = 0 then 0 else d.exp + trailingTens d.coeff

/-- Modelled from the spec: `multiply_pow10` of the external fixed_decimal
crate — shift the value and the display bounds by `k` powers of ten,
keeping the rendered range spanning position 0 (this is what introduces
the leading zero that percent scaling then trims). -/
def Dec.multiplyPow10 (d : Dec) (k : Int) : Dec :=
  { d with
    exp := d.exp + k
    upperMag := max (d.upperMag + k) 0
    lowerMag := min (d.lowerMag + k) 0 }

/-- Modelled from the spec: `trim_start` of the external fixed_decimal
crate — drop leading zeros: the upper display bound becomes the most
significant nonzero digit position (at least 0). -/
def Dec.trimStart (d : Dec) : Dec :=
  { d with upperMag := max d.msMag 0 }

/-- Modelled from the spec: `pad_end` of the external fixed_decimal crate —
zero-pad the number on the right to `position` (a no-op for non-negative
positions); it can truncate zeros but never nonzero digits. -/
def Dec.padEnd (d : Dec) (position : Int) : Dec :=
  if 0 ≤ position then d
  else { d with lowerMag := min position d.nzEnd }

/-- Modelled from the spec: `pad_start` of the external fixed_decimal
crate — zero-pad the number on the left to `position` integer digits (a
no-op for non-positive positions); it can truncate zeros but never nonzero
digits. -/
def Dec.padStart (d : Dec) (position : Int) : Dec :=
  if position ≤ 0 then d
  else { d with upperMag := max (position - 1) (max d.msMag 0) }

/-- Modelled from the spec: the tie-break of each of the nine rounding
modes, deciding whether the kept digits `q` are incremented given the
dropped remainder `r` out of `p` (the power of ten of the dropped digits)
and the sign. -/
def roundUpQ (mode : RoundingMode) (neg : Bool) (q r p : Nat) : Bool :=
  match mode with
  | .ceil => if neg then false else r != 0
  | .floor => if neg then r != 0 else false
  | .expand => r != 0
  | .trunc => false
  | .halfCeil => if neg then decide (p < 2 * r) else decide (p ≤ 2 * r)
  | .halfFloor => if neg then decide (p ≤ 2 * r) else decide (p < 2 * r)
  | .halfExpand => decide (p ≤ 2 * r)
  | .halfTrunc => decide (p < 2 * r)
  | .halfEven =>
    if p < 2 * r then true
    else if 2 * r < p then false
    else q % 2 == 1

/-- Modelled from the spec: `round_with_mode` of the external fixed_decimal
crate — round the value at digit `position` with the selected mode; the
lower display bound becomes `min position 0`, and the upper bound grows if
a carry lengthens the number. -/
def Dec.roundWithMode (d : Dec) (position : Int) (mode : RoundingMode) : Dec :=
  let k := position - d.exp
  if k ≤ 0 then { d with lowerMag := min position 0 }
  else
    let p := 10 ^ k.toNat
    let q := d.coeff / p
    let r := d.coeff % p
    let c2 := if roundUpQ mode d.neg q r p then q + 1 else q
    let ms : Int := if c2 = 0 then 0 else position + (numDigits c2 - 1)
    { neg := d.neg, coeff := c2, exp := position,
      upperMag := max d.upperMag (max ms 0), lowerMag := min position 0 }

/-- Modelled from the spec: the plain decimal rendering of the external
renderer for these inputs (root digits, no grouping applies at these
lengths): the digits from the upper to the lower display bound, a decimal
point between positions 0 and -1 when fractional positions are rendered,
and a leading minus sign for negative values. -/
def Dec.render (d : Dec) : String :=
  let n := (d.upperMag - d.lowerMag).toNat
  let digs := (List.range (n + 1)).map (fun i => Nat.digitChar (d.digitAt (d.upperMag - i)))
  let intLen := d.upperMag.toNat + 1
  let chars := if d.lowerMag < 0 then digs.take intLen ++ ['.'] ++ digs.drop intLen else digs
  (if d.neg then "-" else "") ++ String.mk chars

/-- The configuration a successful `NumberFormat::new` retains. -/
structure NumberFormat where
  style : Style
  useGrouping : Bool
  currencyCode : Option String
  minimumIntegerDigits : Option Int
  minimumFractionDigits : Option Int
  maximumFractionDigits : Option Int
  roundingMode : RoundingMode
deriving DecidableEq, Repr

/-- The kwargs accepted by `NumberFormat::new`, as typed Ruby values:
symbol options as strings, digit options as integers, plus whether the
mandatory provider argument is present. -/
structure NFKwargs where
  providerPresent : Bool := true
  style : Option String := none
  currency : Option String := none
  useGrouping : Option Bool := none
  minimumIntegerDigits : Option Int := none
  minimumFractionDigits : Option Int := none
  maximumFractionDigits : Option Int := none
  roundingMode : Option String := none
deriving DecidableEq, Repr

/-- `NumberFormat::extract_digit_option`: a present value must be
non-negative and at most `i16::MAX`. -/
def extractDigitOption (name : String) (value : Option Int) :
    Except String (Option Int) :=
  match value with
  | some v =>
    if v < 0 then .error (name ++ " must be non-negative")
    else if v > 32767 then .error (name ++ " is too large (max 32767)")
    else .ok (some v)
  | none => .ok none

/-- `NumberFormat::extract_rounding_mode`: default half_expand, match the
nine symbols in order, else a validation error naming the accepted set. -/
def extractRoundingMode (value : Option String) : Except String RoundingMode :=
  match value with
  | none => .ok .halfExpand
  | some s =>
    if s = "ceil" then .ok .ceil
    else if s = "floor" then .ok .floor
    else if s = "expand" then .ok .expand
    else if s = "trunc" then .ok .trunc
    else if s = "half_ceil" then .ok .halfCeil
    else if s = "half_floor" then .ok .halfFloor
    else if s = "half_expand" then .ok .halfExpand
    else if s = "half_trunc" then .ok .halfTrunc
    else if s = "half_even" then .ok .halfEven
    else .error "rounding_mode must be :ceil, :floor, :expand, :trunc, :half_ceil, :half_floor, :half_expand, :half_trunc, or :half_even"

/-- Modelled from the external tinystr crate: `TinyAsciiStr<3>` parses
ASCII strings of length at most 3. -/
def tiny3Ok (s : String) : Bool :=
  decide (s.length ≤ 3) && s.toList.all (fun c => c.toNat < 128)

/-- `NumberFormat::new` option validation, in source order: the mandatory
provider, the style (default decimal), the currency requirement for the
currency style, grouping (default true), the three digit options, the
rounding mode, and the currency-code parse inside the currency branch. -/
def NumberFormat.new (kw : NFKwargs) : Except String NumberFormat := do
  if !kw.providerPresent then
    .error "missing keyword: :provider"
  else do
    let style ← match kw.style with
      | none => Except.ok Style.decimal
      | some s =>
        if s = "decimal" then Except.ok Style.decimal
        else if s = "percent" then Except.ok Style.percent
        else if s = "currency" then Except.ok Style.currency
        else Except.error "style must be :decimal, :percent, or :currency"
    if style = Style.currency && kw.currency.isNone then
      .error "currency is required when style is :currency"
    else do
      let useGrouping := kw.useGrouping.getD true
      let minInt ← extractDigitOption "minimum_integer_digits" kw.minimumIntegerDigits
      let minFrac ← extractDigitOption "minimum_fraction_digits" kw.minimumFractionDigits
      let maxFrac ← extractDigitOption "maximum_fraction_digits" kw.maximumFractionDigits
      let roundingMode ← extractRoundingMode kw.roundingMode
      let _ ← match style, kw.currency with
        | Style.currency, some c =>
          if tiny3Ok c then Except.ok ()
          else Except.error ("currency must be a valid 3-letter ISO 4217 code, got: " ++ c)
        | _, _ => Except.ok ()
      .ok { style := style, useGrouping := useGrouping, currencyCode := kw.currency,
            minimumIntegerDigits := minInt, minimumFractionDigits := minFrac,
            maximumFractionDigits := maxFrac, roundingMode := roundingMode }

/-- Step 1 of `NumberFormat::format`: percent scaling by 100 with
leading-zero trim. -/
def percentStage (nf : NumberFormat) (d : Dec) : Dec :=
  if nf.style = Style.percent then (d.multiplyPow10 2).trimStart else d

/-- Step 2 of `NumberFormat::format`: round at the maximum fraction count
with the selected mode, when set. -/
def roundStage (nf : NumberFormat) (d : Dec) : Dec :=
  match nf.maximumFractionDigits with
  | some mx => d.roundWithMode (-mx) nf.roundingMode
  | none => d

/-- Step 3 of `NumberFormat::format`: pad the fraction to the minimum
fraction count, when set. -/
def padEndStage (nf : NumberFormat) (d : Dec) : Dec :=
  match nf.minimumFractionDigits with
  | some mn => d.padEnd (-mn)
  | none => d

/-- Step 4 of `NumberFormat::format`: pad the integer part to the minimum
integer count, when set. -/
def padStartStage (nf : NumberFormat) (d : Dec) : Dec :=
  match nf.minimumIntegerDigits with
  | some mn => d.padStart mn
  | none => d

/-- The digit pipeline of `NumberFormat::format`, in source order: percent
scaling (with trim), then rounding, then fraction padding, then integer
padding. -/
def NumberFormat.formatDec (nf : NumberFormat) (d : Dec) : Dec :=
  let d := if nf.style = Style.percent then (d.multiplyPow10 2).trimStart else d
  let d := match nf.maximumFractionDigits with
    | some mx => d.roundWithMode (-mx) nf.roundingMode
    | none => d
  let d := match nf.minimumFractionDigits with
    | some mn => d.padEnd (-mn)
    | none => d
  match nf.minimumIntegerDigits with
  | some mn => d.padStart mn
  | none => d

/-- The rendered text of `NumberFormat::format`. -/
def NumberFormat.formatString (nf : NumberFormat) (d : Dec) : String :=
  (nf.formatDec d).render

/-- The decimal 3.14159 (as parsed from the printed float). -/
def dec3p14159 : Dec :=
  { neg := false, coeff := 314159, exp := -5, upperMag := 0, lowerMag := -5 }

/-- The decimal 0.125. -/
def dec0p125 : Dec :=
  { neg := false, coeff := 125, exp := -3, upperMag := 0, lowerMag := -3 }

/-- The decimal 5 (as converted from the integer 5). -/
def dec5 : Dec :=
  { neg := false, coeff := 5, exp := 0, upperMag := 0, lowerMag := 0 }

/-- The decimal 0.5. -/
def dec0p5 : Dec :=
  { neg := false, coeff := 5, exp := -1, upperMag := 0, lowerMag := -1 }

/-- Decimal style, maximum-fraction 2, half_expand. -/
def nfMax2HalfExpand : NumberFormat :=
  { style := .decimal, useGrouping := true, currencyCode := none,
    minimumIntegerDigits := none, minimumFractionDigits := none,
    maximumFractionDigits := some 2, roundingMode := .halfExpand }

/-- Decimal style, maximum-fraction 2, half_even. -/
def nfMax2HalfEven : NumberFormat :=
  { style := .decimal, useGrouping := true, currencyCode := none,
    minimumIntegerDigits := none, minimumFractionDigits := none,
    maximumFractionDigits := some 2, roundingMode := .halfEven }

/-- Decimal style, minimum-fraction 2. -/
def nfMinFrac2 : NumberFormat :=
  { style := .decimal, useGrouping := true, currencyCode := none,
    minimumIntegerDigits := none, minimumFractionDigits := some 2,
    maximumFractionDigits := none, roundingMode := .halfExpand }

/-- Decimal style, minimum-integer 3. -/
def nfMinInt3 : NumberFormat :=
  { style := .decimal, useGrouping := true, currencyCode := none,
    minimumIntegerDigits := some 3, minimumFractionDigits := none,
    maximumFractionDigits := none, roundingMode := .halfExpand }

/-- Percent style without digit limits. -/
def nfPercent : NumberFormat :=
  { style := .percent, useGrouping := true, currencyCode := none,
    minimumIntegerDigits := none, minimumFractionDigits := none,
    maximumFractionDigits := none, roundingMode := .halfExpand }

/-- Decimal style with the conflicting pair minimum-fraction 3,
maximum-fraction 1. -/
def nfMin3Max1 : NumberFormat :=
  { style := .decimal, useGrouping := true, currencyCode := none,
    minimumIntegerDigits := none, minimumFractionDigits := some 3,
    maximumFractionDigits := some 1, roundingMode := .halfExpand }

theorem joinTexts_data_append (l1 l2 : List (String × Part)) :
    (joinTexts (l1 ++ l2)).data = (joinTexts l1).data ++ (joinTexts l2).data := by
  induction l1 with
  | nil => simp [joinTexts]
  | cons x xs ih => simp [joinTexts, ih, String.data_append]

theorem joinTexts_intoParts (c : PartsCollector) :
    (joinTexts c.intoParts).data = totalData c := by
  unfold PartsCollector.intoParts PartsCollector.flush totalData
  by_cases h : c.currentBuffer.isEmpty = true
  · have hb : c.currentBuffer = "" := (String.isEmpty_iff _).mp h
    simp [hb, show "".isEmpty = true from rfl]
  · simp [h, joinTexts_data_append, joinTexts, String.data_append]

mutual

theorem runOp_totalData : ∀ (op : WOp) (c : PartsCollector),
    totalData (runOp op c) = totalData c ++ (plainOp op).data
  | .write s, c => by
    simp [runOp, totalData, plainOp, String.data_append]
  | .withPart p ops, c => by
    have ih := runOps_totalData ops
    unfold runOp
    by_cases h1 : (c.partStack.isEmpty && !c.currentBuffer.isEmpty) = true
    · simp only [h1, if_true]
      set c3 := runOps ops
        { parts := c.parts ++ [(c.currentBuffer, literalPart)], currentBuffer := "",
          partStack := p :: c.partStack } with hc3
      have h3 : totalData c3 = totalData
          { parts := c.parts ++ [(c.currentBuffer, literalPart)], currentBuffer := "",
            partStack := p :: c.partStack } ++ (plainOps ops).data := ih _
      simp only [totalData, joinTexts_data_append, joinTexts, String.data_append,
        plainOp] at h3 ⊢
      by_cases h2 : (c3.partStack.tail.isEmpty && !c3.currentBuffer.isEmpty) = true
      · simp [h2, joinTexts_data_append, joinTexts, String.data_append, h3]
      · simp [h2, h3]
    · simp only [h1, if_false]
      set c3 := runOps ops { c with partStack := p :: c.partStack } with hc3
      have h3 : totalData c3 =
          totalData { c with partStack := p :: c.partStack } ++ (plainOps ops).data := ih _
      simp only [totalData, plainOp] at h3 ⊢
      by_cases h2 : (c3.partStack.tail.isEmpty && !c3.currentBuffer.isEmpty) = true
      · simp [h2, joinTexts_data_append, joinTexts, String.data_append, h3]
      · simp [h2, h3]

theorem runOps_totalData : ∀ (ops : WOps) (c : PartsCollector),
    totalData (runOps ops c) = totalData c ++ (plainOps ops).data
  | .nil, c => by simp [runOps, plainOps, totalData]
  | .cons op ops, c => by
    have ih := runOps_totalData ops (runOp op c)
    simp only [runOps, plainOps]
    rw [ih, runOp_totalData, String.data_append, List.append_assoc]

end

/-- C1: for every render call, concatenating the span texts emitted through
the `PartsCollector` (after `into_parts`) yields exactly the string the same
operations write into a plain string sink: every written character lands in
exactly one span, in write order. -/
theorem parts_concatenation_law (ops : WOps) :
    joinTexts (runOps ops PartsCollector.new).intoParts = plainOps ops := by
  apply String.ext
  rw [joinTexts_intoParts, runOps_totalData]
  simp [totalData, PartsCollector.new, joinTexts]

mutual

theorem runOp_nested : ∀ (op : WOp) (c : PartsCollector), c.partStack ≠ [] →
    runOp op c = { c with currentBuffer := c.currentBuffer ++ plainOp op }
  | .write s, c, _ => by simp [runOp, plainOp]
  | .withPart p ops, c, h => by
    have hne : c.partStack.isEmpty = false := by
      cases hs : c.partStack with
      | nil => exact absurd hs h
      | cons a l => simp
    have ih := runOps_nested ops { c with partStack := p :: c.partStack } (by simp)
    unfold runOp
    simp only [hne, Bool.false_and, Bool.false_eq_true, if_false, ih]
    simp [hne, plainOp]

theorem runOps_nested : ∀ (ops : WOps) (c : PartsCollector), c.partStack ≠ [] →
    runOps ops c = { c with currentBuffer := c.currentBuffer ++ plainOps ops }
  | .nil, c, _ => by simp [runOps, plainOps]
  | .cons op ops, c, h => by
    have h1 := runOp_nested op c h
    have h2 := runOps_nested ops { c with currentBuffer := c.currentBuffer ++ plainOp op } h
    simp only [runOps, h1, h2, plainOps, String.append_assoc]

end

/-- The collected inner text of a `with_part` region executed from the top
level: all writes of the body, in order (inner regions never flush). -/
theorem runOp_withPart_top (p : Part) (ops : WOps) (c : PartsCollector)
    (h : c.partStack = []) :
    runOp (.withPart p ops) c =
      { parts := c.parts
          ++ (if c.currentBuffer.isEmpty then [] else [(c.currentBuffer, literalPart)])
          ++ (if (plainOps ops).isEmpty then [] else [(plainOps ops, p)]),
        currentBuffer := "", partStack := [] } := by
  obtain ⟨ps, buf, stk⟩ := c
  simp only at h
  subst h
  by_cases hb : buf.isEmpty = true
  · have hbuf : buf = "" := (String.isEmpty_iff _).mp hb
    subst hbuf
    have ih := runOps_nested ops
      { parts := ps, currentBuffer := "", partStack := [p] } (by simp)
    by_cases ht : (plainOps ops).isEmpty = true
    · have h0 : plainOps ops = "" := (String.isEmpty_iff _).mp ht
      simp [runOp, ih, h0, show "".isEmpty = true from rfl]
    · simp [runOp, ih, ht, String.empty_append, show "".isEmpty = true from rfl]
  · have ih := runOps_nested ops
      { parts := ps ++ [(buf, literalPart)], currentBuffer := "", partStack := [p] }
      (by simp)
    by_cases ht : (plainOps ops).isEmpty = true
    · have h0 : plainOps ops = "" := (String.isEmpty_iff _).mp ht
      simp [runOp, ih, hb, h0, show "".isEmpty = true from rfl]
    · simp [runOp, ih, hb, ht, String.empty_append]

/-- `into_parts` appends the pending buffer, when non-empty, as one literal
span. -/
theorem intoParts_eq (c : PartsCollector) :
    c.intoParts = c.parts
      ++ (if c.currentBuffer.isEmpty then [] else [(c.currentBuffer, literalPart)]) := by
  unfold PartsCollector.intoParts PartsCollector.flush
  by_cases h : c.currentBuffer.isEmpty = true
  · simp [h]
  · simp [h]

theorem ne_empty_of_not_isEmpty (s : String) (h : ¬s.isEmpty = true) : s ≠ "" :=
  fun he => h (he ▸ rfl)

/-- C6: when a `with_part` region entered from the top level pops and the
stack becomes empty, the non-empty pending buffer (everything written while
the region was active, including inside arbitrarily nested inner regions) is
flushed as exactly one span tagged with the region just exited — the
outermost region — so nested annotations never produce multiple or
overlapping spans. -/
theorem pop_to_empty_flush_outermost (c : PartsCollector) (p : Part) (ops : WOps)
    (hstack : c.partStack = []) (htext : ¬(plainOps ops).isEmpty = true) :
    runOp (.withPart p ops) c =
      { parts := c.parts
          ++ (if c.currentBuffer.isEmpty then [] else [(c.currentBuffer, literalPart)])
          ++ [(plainOps ops, p)],
        currentBuffer := "", partStack := [] } := by
  rw [runOp_withPart_top p ops c hstack]
  simp [htext]

/-- Witness for C6: writing "12" inside nested regions (outer "date", inner
"year") yields exactly one span, text "12", tagged "date". -/
theorem pop_to_empty_flush_outermost_witness :
    PartsCollector.new.partStack = [] ∧
    runOp (.withPart ⟨"date", "date"⟩
        (.cons (.withPart ⟨"year", "year"⟩ (.cons (.write "12") .nil)) .nil))
        PartsCollector.new =
      { parts := [("12", ⟨"date", "date"⟩)], currentBuffer := "", partStack := [] } :=
  ⟨rfl, by
    simpa using pop_to_empty_flush_outermost PartsCollector.new ⟨"date", "date"⟩
      (.cons (.withPart ⟨"year", "year"⟩ (.cons (.write "12") .nil)) .nil) rfl (by decide)⟩

/-- C8: text written while no region is open is always tagged "literal":
entering a region from the top level with a non-empty pending buffer first
flushes that buffer as one span tagged with the literal part, and
`into_parts` flushes a non-empty pending buffer as one span tagged with the
literal part. -/
theorem top_level_text_literal :
    (∀ (c : PartsCollector) (p : Part) (ops : WOps),
      c.partStack = [] → ¬c.currentBuffer.isEmpty = true →
      runOp (.withPart p ops) c =
        { parts := c.parts ++ [(c.currentBuffer, literalPart)]
            ++ (if (plainOps ops).isEmpty then [] else [(plainOps ops, p)]),
          currentBuffer := "", partStack := [] }) ∧
    (∀ c : PartsCollector, c.intoParts = c.parts
        ++ (if c.currentBuffer.isEmpty then [] else [(c.currentBuffer, literalPart)])) := by
  constructor
  · intro c p ops hstack hbuf
    rw [runOp_withPart_top p ops c hstack]
    simp [hbuf]
  · exact intoParts_eq

/-- Witness for C8 at concrete inputs: a buffered "ab" is flushed as a
literal span on region entry, and `into_parts` flushes a pending "x" as a
literal span. -/
theorem top_level_text_literal_witness :
    runOp (.withPart ⟨"year", "year"⟩ .nil)
        { parts := [], currentBuffer := "ab", partStack := [] } =
      { parts := [("ab", literalPart)], currentBuffer := "", partStack := [] } ∧
    PartsCollector.intoParts { parts := [], currentBuffer := "x", partStack := [] } =
      [("x", literalPart)] :=
  ⟨by
    simpa using top_level_text_literal.1 ⟨[], "ab", []⟩ ⟨"year", "year"⟩ .nil
      rfl (by decide),
   by simpa using top_level_text_literal.2 ⟨[], "x", []⟩⟩

/-- Running a render from a top-level state with only non-empty span texts
keeps the stack at top level and every span text non-empty: every flush is
guarded by a non-emptiness check. -/
theorem runOps_top_invariant : ∀ (ops : WOps) (c : PartsCollector),
    c.partStack = [] → (∀ x ∈ c.parts, x.1 ≠ "") →
    (runOps ops c).partStack = [] ∧ ∀ x ∈ (runOps ops c).parts, x.1 ≠ ""
  | .nil, _, hs, hp => ⟨hs, hp⟩
  | .cons op ops, c, hs, hp => by
    cases op with
    | write s =>
      exact runOps_top_invariant ops _ (by simpa [runOp] using hs)
        (by simpa [runOp] using hp)
    | withPart p b =>
      have hr : runOps (WOps.cons (WOp.withPart p b) ops) c
          = runOps ops (runOp (.withPart p b) c) := rfl
      rw [hr, runOp_withPart_top p b c hs]
      apply runOps_top_invariant ops _ rfl
      intro x hx
      simp only [List.mem_append] at hx
      rcases hx with (hx | hx) | hx
      · exact hp x hx
      · by_cases hb : c.currentBuffer.isEmpty = true
        · rw [if_pos hb] at hx
          simp at hx
        · rw [if_neg hb, List.mem_singleton] at hx
          rw [hx]
          exact ne_empty_of_not_isEmpty _ hb
      · by_cases ht : (plainOps b).isEmpty = true
        · rw [if_pos ht] at hx
          simp at hx
        · rw [if_neg ht, List.mem_singleton] at hx
          rw [hx]
          exact ne_empty_of_not_isEmpty _ ht

/-- C10: the collector never emits a span with empty text: for every
sequence of write and with_part operations, every (text, part) pair produced
by `into_parts` has non-empty text. -/
theorem spans_text_nonempty (ops : WOps) (x : String × Part)
    (hx : x ∈ (runOps ops PartsCollector.new).intoParts) : x.1 ≠ "" := by
  have h := runOps_top_invariant ops PartsCollector.new rfl (by simp [PartsCollector.new])
  rw [intoParts_eq] at hx
  rcases List.mem_append.mp hx with h1 | h2
  · exact h.2 x h1
  · by_cases hb : (runOps ops PartsCollector.new).currentBuffer.isEmpty = true
    · rw [if_pos hb] at h2
      simp at h2
    · rw [if_neg hb, List.mem_singleton] at h2
      rw [h2]
      exact ne_empty_of_not_isEmpty _ hb

/-- Witness for C10: a concrete run whose emitted span ("a", literal) has
non-empty text. -/
theorem spans_text_nonempty_witness :
    ("a", literalPart) ∈ (runOps (.cons (.write "a") .nil) PartsCollector.new).intoParts ∧
    ("a" : String) ≠ "" :=
  ⟨by decide, spans_text_nonempty (.cons (.write "a") .nil) ("a", literalPart) (by decide)⟩

theorem except_bind_ok {E A B : Type} (a : A) (f : A → Except E B) :
    (Except.ok a : Except E A) >>= f = f a := rfl

/-- C2 (amended): the component-to-field-set selection is a fixed decision
table. When no time component is present it is keyed on the presence of
year/month/day/weekday with the fallbacks of `expectedSelection`; when any
time component is present the combined YMDT field set is selected
regardless of which date components are present (T when none is). -/
theorem field_set_selection_table (opts : ComponentOptions) :
    (createFieldSetFromComponents opts).toOption.map fieldSetName =
      expectedSelection opts.year.isSome opts.month.isSome opts.day.isSome
        opts.weekday.isSome
        (opts.hour.isSome || opts.minute.isSome || opts.second.isSome) := by
  obtain ⟨y, m, d, e, h, mi, s⟩ := opts
  cases y <;> cases m <;> cases d <;> cases e <;> cases h <;> cases mi <;> cases s <;> rfl

/-- Counterexample to C2 as stated: time-of-day presence does alter which
date combination is selected ({day, weekday} selects the day-weekday set,
but {day, weekday, hour} selects the combined year-month-day-time set), and
{month, weekday} falls back to the month-only set, which drops the weekday
rather than falling back to a superset. -/
theorem field_set_time_not_orthogonal :
    createFieldSetFromComponents
        { day := some .numeric, weekday := some .long, hour := some .numeric } =
      .ok (.dateTime (.ymdt .long)) ∧
    createFieldSetFromComponents { day := some .numeric, weekday := some .long } =
      .ok (.date (.de .long)) ∧
    fieldSetName (.dateTime (.ymdt .long)) ≠ fieldSetName (.date (.de .long)) ∧
    createFieldSetFromComponents { month := some .numeric, weekday := some .long } =
      .ok (.calendarPeriod (.m .long)) := by
  refine ⟨rfl, rfl, ?_, rfl⟩
  decide

/-- C3: whenever a style option and a component option are both present
(and the option values themselves are recognized), `DateTimeFormat::new`
fails with the mutual-exclusion validation error; no descriptor is
produced. -/
theorem style_component_mutual_exclusion (kw : List (String × String))
    (ds : Option DateStyle) (ts : Option TimeStyle) (comp : ComponentOptions)
    (h1 : extractSymbol kw "date_style" DateStyle.fromSym = .ok ds)
    (h2 : extractSymbol kw "time_style" TimeStyle.fromSym = .ok ts)
    (h3 : extractComponentOptions kw = .ok comp)
    (h4 : (ds.isSome || ts.isSome) = true)
    (h5 : comp.isEmpty = false) :
    DateTimeFormat.new kw =
      .error "cannot use date_style/time_style together with component options (year, month, day, etc.)" := by
  unfold DateTimeFormat.new
  rw [h1, h2, h3]
  simp [except_bind_ok, h4, h5]
  intro h6 h7
  subst h6
  subst h7
  simp at h4

/-- Witness for C3: date_style together with a year component is rejected. -/
theorem style_component_mutual_exclusion_witness :
    DateTimeFormat.new [("date_style", "full"), ("year", "numeric")] =
      .error "cannot use date_style/time_style together with component options (year, month, day, etc.)" :=
  style_component_mutual_exclusion [("date_style", "full"), ("year", "numeric")]
    (some .full) none { year := some .numeric } rfl rfl rfl rfl rfl

/-- C7: an option set with neither style nor component keys resolves
without error to the default component set year/month/day all numeric, and
the resulting descriptor is identical to the one built from those three
components given explicitly. -/
theorem empty_options_default_ymd :
    DateTimeFormat.new [] = DateTimeFormat.new
      [("year", "numeric"), ("month", "numeric"), ("day", "numeric")] ∧
    (DateTimeFormat.new []).isOk = true := by
  constructor
  · rfl
  · rfl

theorem except_error_bind {E A B : Type} (e : E) (f : A → Except E B) :
    (Except.error e : Except E A) >>= f = .error e := rfl

theorem value_padEnd (d : Dec) (p : Int) : (d.padEnd p).value = d.value := by
  unfold Dec.padEnd
  split <;> rfl

theorem value_padStart (d : Dec) (p : Int) : (d.padStart p).value = d.value := by
  unfold Dec.padStart
  split <;> rfl

theorem value_padEndStage (nf : NumberFormat) (d : Dec) :
    (padEndStage nf d).value = d.value := by
  cases hm : nf.minimumFractionDigits with
  | none => simp [padEndStage, hm]
  | some mn => simp [padEndStage, hm, value_padEnd]

theorem value_padStartStage (nf : NumberFormat) (d : Dec) :
    (padStartStage nf d).value = d.value := by
  cases hm : nf.minimumIntegerDigits with
  | none => simp [padStartStage, hm]
  | some mn => simp [padStartStage, hm, value_padStart]

/-- C4: the numeric pipeline applies percent scaling (with leading-zero
trim), then rounding at the maximum-fraction count with the selected mode,
then fraction padding, then integer padding, in that fixed order; the
padding steps never change the numeric value (the value is settled at the
rounding stage); and the documented examples hold: 3.14159 with
maximum-fraction 2 and half-expand renders "3.14", 0.125 with
maximum-fraction 2 and half-to-even renders "0.12", 5 with
minimum-fraction 2 renders "5.00", 5 with minimum-integer 3 renders
"005", and 0.5 with the percentage flag and no digit limits renders text
beginning "50". -/
theorem numeric_pipeline_order_and_examples :
    (∀ (nf : NumberFormat) (d : Dec),
      nf.formatDec d =
        padStartStage nf (padEndStage nf (roundStage nf (percentStage nf d)))) ∧
    (∀ (nf : NumberFormat) (d : Dec),
      (nf.formatDec d).value = (roundStage nf (percentStage nf d)).value) ∧
    nfMax2HalfExpand.formatString dec3p14159 = "3.14" ∧
    nfMax2HalfEven.formatString dec0p125 = "0.12" ∧
    nfMinFrac2.formatString dec5 = "5.00" ∧
    nfMinInt3.formatString dec5 = "005" ∧
    List.isPrefixOf "50".data (nfPercent.formatString dec0p5).data = true := by
  refine ⟨fun nf d => rfl, fun nf d => ?_, rfl, rfl, rfl, rfl, by decide⟩
  rw [show nf.formatDec d =
    padStartStage nf (padEndStage nf (roundStage nf (percentStage nf d))) from rfl]
  rw [value_padStartStage, value_padEndStage]

/-- Counterexample to C5 as stated: a maximum-fraction count (1) smaller
than the minimum-fraction count (3) is accepted by `NumberFormat::new`;
construction succeeds, no validation error is raised. -/
theorem min_max_fraction_conflict_not_validated :
    (NumberFormat.new
      { minimumFractionDigits := some 3, maximumFractionDigits := some 1 }).isOk
      = true := rfl

/-- C5 (amended): the fraction digit counts are validated only
individually (non-negative and at most 32767) at construction; no relative
check between them exists, and a minimum exceeding the maximum is silently
reconciled at format time by rounding to the maximum and then padding to
the minimum (3.14159 with maximum 1 and minimum 3 renders "3.100"). -/
theorem min_max_fraction_no_relative_validation (mn mx : Int)
    (h1 : 0 ≤ mn) (h2 : mn ≤ 32767) (h3 : 0 ≤ mx) (h4 : mx ≤ 32767) :
    (NumberFormat.new
      { minimumFractionDigits := some mn, maximumFractionDigits := some mx }).isOk
      = true ∧
    nfMin3Max1.formatString dec3p14159 = "3.100" := by
  constructor
  · have e1 : ¬(mn < 0) := by omega
    have e2 : ¬(mn > 32767) := by omega
    have e3 : ¬(mx < 0) := by omega
    have e4 : ¬(mx > 32767) := by omega
    simp [NumberFormat.new, extractDigitOption, extractRoundingMode,
      e1, e2, e3, e4, except_bind_ok, Except.isOk, Except.toBool]
  · rfl

/-- Witness for the amended C5 at the conflicting pair (min 3, max 1). -/
theorem min_max_fraction_no_relative_validation_witness :
    (NumberFormat.new
      { minimumFractionDigits := some 3, maximumFractionDigits := some 1 }).isOk
      = true ∧
    nfMin3Max1.formatString dec3p14159 = "3.100" :=
  min_max_fraction_no_relative_validation 3 1 (by decide) (by decide) (by decide)
    (by decide)

/-- Counterexample to C9 as stated: an option set containing only the
unrecognized key "frobnicate" is not rejected; construction succeeds (the
key is silently ignored and the defaults apply). -/
theorem unrecognized_key_ignored :
    (DateTimeFormat.new [("frobnicate", "x")]).isOk = true := rfl

/-- C9 (amended): an unrecognized enumeration value for a recognized key is
rejected at construction time with a descriptive validation error naming
the offending key and its accepted value set (shown for date_style and
month of DateTimeFormat and style and rounding_mode of NumberFormat);
unrecognized keys are silently ignored. -/
theorem unrecognized_value_rejected :
    (∀ v : String, v ≠ "full" → v ≠ "long" → v ≠ "medium" → v ≠ "short" →
      DateTimeFormat.new [("date_style", v)] =
        .error "date_style must be :full, :long, :medium, :short") ∧
    (∀ v : String, v ≠ "numeric" → v ≠ "two_digit" → v ≠ "long" → v ≠ "short" →
      v ≠ "narrow" →
      DateTimeFormat.new [("month", v)] =
        .error "month must be :numeric, :two_digit, :long, :short, :narrow") ∧
    (∀ v : String, v ≠ "decimal" → v ≠ "percent" → v ≠ "currency" →
      NumberFormat.new { style := some v } =
        .error "style must be :decimal, :percent, or :currency") ∧
    (∀ v : String, v ≠ "ceil" → v ≠ "floor" → v ≠ "expand" → v ≠ "trunc" →
      v ≠ "half_ceil" → v ≠ "half_floor" → v ≠ "half_expand" → v ≠ "half_trunc" →
      v ≠ "half_even" →
      NumberFormat.new { roundingMode := some v } =
        .error "rounding_mode must be :ceil, :floor, :expand, :trunc, :half_ceil, :half_floor, :half_expand, :half_trunc, or :half_even") := by
  refine ⟨fun v h1 h2 h3 h4 => ?_, fun v h1 h2 h3 h4 h5 => ?_,
    fun v h1 h2 h3 => ?_, fun v h1 h2 h3 h4 h5 h6 h7 h8 h9 => ?_⟩
  · simp [DateTimeFormat.new, extractSymbol, List.lookup, DateStyle.fromSym,
      h1, h2, h3, h4, except_bind_ok, except_error_bind, Except.map]
  · simp [DateTimeFormat.new, extractSymbol, extractComponentOptions, List.lookup,
      MonthStyle.fromSym, h1, h2, h3, h4, h5, except_bind_ok, except_error_bind,
      Except.map]
  · simp [NumberFormat.new, h1, h2, h3, except_bind_ok, except_error_bind]
  · simp [NumberFormat.new, extractDigitOption, extractRoundingMode,
      h1, h2, h3, h4, h5, h6, h7, h8, h9, except_bind_ok, except_error_bind]

/-- Witness for the amended C9 at the unrecognized value "bogus". -/
theorem unrecognized_value_rejected_witness :
    DateTimeFormat.new [("date_style", "bogus")] =
      .error "date_style must be :full, :long, :medium, :short" ∧
    DateTimeFormat.new [("month", "bogus")] =
      .error "month must be :numeric, :two_digit, :long, :short, :narrow" ∧
    NumberFormat.new { style := some "bogus" } =
      .error "style must be :decimal, :percent, or :currency" ∧
    NumberFormat.new { roundingMode := some "bogus" } =
      .error "rounding_mode must be :ceil, :floor, :expand, :trunc, :half_ceil, :half_floor, :half_expand, :half_trunc, or :half_even" :=
  ⟨unrecognized_value_rejected.1 "bogus" (by decide) (by decide) (by decide)
      (by decide),
   unrecognized_value_rejected.2.1 "bogus" (by decide) (by decide) (by decide)
      (by decide) (by decide),
   unrecognized_value_rejected.2.2.1 "bogus" (by decide) (by decide) (by decide),
   unrecognized_value_rejected.2.2.2 "bogus" (by decide) (by decide) (by decide)
      (by decide) (by decide) (by decide) (by decide) (by decide) (by decide)⟩
